import Mathlib

/-!
Shallow embedding of the Mode-1 dual-write storage synchronizer
(src/unnamed/part_000, Go package rest, type DualWriterMode1) and proofs of
the behavioural claims about it.

Both backing stores are modelled as behaviour records: for every operation
the store's response to a call is a field of the record.  Each synchronizer
operation is embedded as a pure function from the two stores and the call
arguments to an Outcome record that captures the synchronous return values,
the legacy-store metric records finalized on the synchronous path, the
secondary-store calls issued synchronously, the secondary-store calls
dispatched to the detached background task, and the metric record that
background task finalizes.
-/

namespace GrafanaDW

/-- A resource object together with the identity metadata a meta accessor
exposes.  The accessible flag models whether meta.Accessor succeeds on the
object; when it is false every accessor-mediated read or write of the
object degrades to a no-op (logged only) as the error taxonomy prescribes. -/
structure Obj where
  name : String
  uid : String
  resourceVersion : String
  labels : List (String × String)
  annots : List (String × String)
  accessible : Bool
deriving DecidableEq

/-- A structured storage error, opaque to the synchronizer. -/
structure Err where
  msg : String
deriving DecidableEq

/-- Which store an observation was recorded for. -/
inductive StoreRole where
  | legacy
  | storage
deriving DecidableEq

/-- One duration/outcome observation handed to the metrics recorder. -/
structure MetricRecord where
  failed : Bool
  modeTag : String
  kindOrName : String
  method : String
  role : StoreRole
deriving DecidableEq

/-- The package-level mode tag: strconv.Itoa(int(Mode1)). -/
def mode : String := "1"

/-- Modelled from the spec: dualWriterMetrics.recordLegacyDuration is not
under src/; per the Metrics Recorder contract it finalizes exactly one
duration/outcome observation per invocation and never propagates errors. -/
def recordLegacyDuration (failed : Bool) (m kindOrName method : String) : MetricRecord :=
  ⟨failed, m, kindOrName, method, StoreRole.legacy⟩

/-- Modelled from the spec: dualWriterMetrics.recordStorageDuration is not
under src/; per the Metrics Recorder contract it finalizes exactly one
duration/outcome observation per invocation and never propagates errors. -/
def recordStorageDuration (failed : Bool) (m kindOrName method : String) : MetricRecord :=
  ⟨failed, m, kindOrName, method, StoreRole.storage⟩

/-- Key-value entries of the second list whose keys are absent from the
first, appended after the first list. -/
def mergeMissing (tgt src : List (String × String)) : List (String × String) :=
  tgt ++ src.filter (fun kv => !(tgt.any (fun kv0 => kv0.1 == kv.1)))

/-- Modelled from the spec: enrichObject is not under src/; the identity
reconciliation algorithm copies uniqueID and versionToken from source onto
target and copies forward labels/annotations missing on target without
overwriting entries explicitly set by the caller on target. -/
def enrichObject (target source : Obj) : Obj :=
  { target with
    uid := source.uid,
    resourceVersion := source.resourceVersion,
    labels := mergeMissing target.labels source.labels,
    annots := mergeMissing target.annots source.annots }

/-- rest.UpdatedObjectInfo: either the caller-supplied update directive
(a function from the current stored object to the object to persist), or
an updateWrapper around an upstream directive. -/
inductive ObjInfo where
  | base (f : Option Obj → Option Obj × Option Err)
  | wrapper (upstream : ObjInfo) (updated : Option Obj)

/-- Modelled from the spec: updateWrapper.UpdatedObject is not under src/;
resolving a wrapper ignores the current object handed in and delegates to
the wrapped directive's resolve at the supplied object. -/
def resolveObjInfo : ObjInfo → Option Obj → Option Obj × Option Err
  | ObjInfo.base f, cur => f cur
  | ObjInfo.wrapper up updated, _ => resolveObjInfo up updated

/-- Whether a directive has been wrapped by the synchronizer. -/
def ObjInfo.isWrapped : ObjInfo → Bool
  | ObjInfo.base _ => false
  | ObjInfo.wrapper _ _ => true

/-- The result of the in-place accessor writes of src lines 210-211: the
primary result's resourceVersion and UID set to the fetched secondary
copy's values. -/
def withIdentityOf (r o : Obj) : Obj :=
  { r with resourceVersion := o.resourceVersion, uid := o.uid }

/-- A call issued against the secondary (Storage) store. -/
inductive SecCall where
  | create (obj : Obj)
  | get (name : String)
  | list
  | update (name : String) (info : ObjInfo)
  | delete (name : String)
  | deleteCollection

/-- Behaviour of the secondary (Storage) store: the response it gives to
each call the synchronizer can make. -/
structure StorageStore where
  createResp : Obj → Option Obj × Option Err
  getResp : String → Option Obj × Option Err
  listResp : Option Obj × Option Err
  updateResp : String → ObjInfo → Option Obj × Bool × Option Err
  deleteResp : String → Option Obj × Bool × Option Err
  deleteCollectionResp : Option Obj × Option Err
  newListObj : Obj
  destroyToken : String

/-- Behaviour of the primary (LegacyStorage) store. -/
structure LegacyStore where
  createResp : Obj → Option Obj × Option Err
  getResp : String → Option Obj × Option Err
  listResp : Option Obj × Option Err
  updateResp : String → ObjInfo → Option Obj × Bool × Option Err
  deleteResp : String → Option Obj × Bool × Option Err
  deleteCollectionResp : Option Obj × Option Err
  singularName : String
  nsScoped : Bool
  newObj : Obj
  convertToTable : Option Obj → Option Obj → Option String × Option Err
  destroyToken : String

/-- The Mode-1 dual writer: a legacy (primary) store and a storage
(secondary) store. -/
structure DualWriterMode1 where
  Legacy : LegacyStore
  Storage : StorageStore

/-- Everything one synchronizer operation produces: the synchronous return
values handed to the caller, the legacy metric records finalized on the
synchronous path in order, the secondary-store calls issued synchronously
on the caller's path, the resolution of the update directive performed
synchronously (Update only), the secondary-store calls dispatched to the
detached background task, and the metric records that task finalizes. -/
structure Outcome where
  res : Option Obj
  asyncFlag : Bool
  err : Option Err
  legacyMetrics : List MetricRecord
  syncCalls : List SecCall
  directiveResolution : Option (Option Obj × Option Err)
  asyncCalls : List SecCall
  storageMetrics : List MetricRecord

/-- Create, given the legacy store's response (src lines 35-69): on legacy
failure record one failed legacy metric and return the error with no
secondary work; on success record one legacy metric, enrich the input
object with the created result's identity when both accessors succeed, and
dispatch the secondary Create with the enriched object asynchronously. -/
def createCore (s : StorageStore) (obj : Obj) (kind : String) :
    Option Obj × Option Err → Outcome
  | (res, some e) =>
      { res := res, asyncFlag := false, err := some e,
        legacyMetrics := [recordLegacyDuration true mode kind "create"],
        syncCalls := [], directiveResolution := none,
        asyncCalls := [], storageMetrics := [] }
  | (res, none) =>
      let enriched :=
        match res with
        | some created =>
            if obj.accessible && created.accessible then enrichObject obj created else obj
        | none => obj
      { res := res, asyncFlag := false, err := none,
        legacyMetrics := [recordLegacyDuration false mode kind "create"],
        syncCalls := [], directiveResolution := none,
        asyncCalls := [SecCall.create enriched],
        storageMetrics :=
          [recordStorageDuration (s.createResp enriched).2.isSome mode kind "create"] }

/-- Get, given the legacy response (src lines 71-94): legacy only on the
synchronous path; on success a shadow secondary Get runs asynchronously and
its result is discarded except for the metric. -/
def getCore (s : StorageStore) (name : String) :
    Option Obj × Option Err → Outcome
  | (res, some e) =>
      { res := res, asyncFlag := false, err := some e,
        legacyMetrics := [recordLegacyDuration true mode name "get"],
        syncCalls := [], directiveResolution := none,
        asyncCalls := [], storageMetrics := [] }
  | (res, none) =>
      { res := res, asyncFlag := false, err := none,
        legacyMetrics := [recordLegacyDuration false mode name "get"],
        syncCalls := [], directiveResolution := none,
        asyncCalls := [SecCall.get name],
        storageMetrics :=
          [recordStorageDuration (s.getResp name).2.isSome mode name "get"] }

/-- List, given the legacy response (src lines 96-119): same shadow-read
pattern as Get at collection granularity. -/
def listCore (s : StorageStore) (kind : String) :
    Option Obj × Option Err → Outcome
  | (res, some e) =>
      { res := res, asyncFlag := false, err := some e,
        legacyMetrics := [recordLegacyDuration true mode kind "list"],
        syncCalls := [], directiveResolution := none,
        asyncCalls := [], storageMetrics := [] }
  | (res, none) =>
      { res := res, asyncFlag := false, err := none,
        legacyMetrics := [recordLegacyDuration false mode kind "list"],
        syncCalls := [], directiveResolution := none,
        asyncCalls := [SecCall.list],
        storageMetrics :=
          [recordStorageDuration s.listResp.2.isSome mode kind "list"] }

/-- Delete, given the legacy response (src lines 121-143): legacy result and
async flag returned synchronously; on success the secondary Delete is
mirrored asynchronously. -/
def deleteCore (s : StorageStore) (name : String) :
    Option Obj × Bool × Option Err → Outcome
  | (res, fl, some e) =>
      { res := res, asyncFlag := fl, err := some e,
        legacyMetrics := [recordLegacyDuration true mode name "delete"],
        syncCalls := [], directiveResolution := none,
        asyncCalls := [], storageMetrics := [] }
  | (res, fl, none) =>
      { res := res, asyncFlag := fl, err := none,
        legacyMetrics := [recordLegacyDuration false mode name "delete"],
        syncCalls := [], directiveResolution := none,
        asyncCalls := [SecCall.delete name],
        storageMetrics :=
          [recordStorageDuration (s.deleteResp name).2.2.isSome mode name "delete"] }

/-- DeleteCollection, given the legacy response (src lines 145-167).  Note
there is no early return on legacy failure: the failure branch records a
failed legacy metric, then a second non-failed legacy metric is recorded
unconditionally, and the secondary DeleteCollection is dispatched either
way; the legacy result and error are returned as-is. -/
def deleteCollectionCore (s : StorageStore) (kind : String) :
    Option Obj × Option Err → Outcome
  | (res, e) =>
      let lm :=
        match e with
        | some _ => [recordLegacyDuration true mode kind "delete-collection",
                     recordLegacyDuration false mode kind "delete-collection"]
        | none => [recordLegacyDuration false mode kind "delete-collection"]
      { res := res, asyncFlag := false, err := e,
        legacyMetrics := lm,
        syncCalls := [], directiveResolution := none,
        asyncCalls := [SecCall.deleteCollection],
        storageMetrics :=
          [recordStorageDuration s.deleteCollectionResp.2.isSome mode kind "delete-collection"] }

/-- Update, given the legacy response (src lines 169-228).  No early return
on legacy failure (failed metric then an unconditional non-failed metric).
The directive is resolved synchronously against the legacy result, a
synchronous secondary Get fetches the secondary copy, and when it is found
the directive is wrapped twice: the inner wrapper supplies the (enriched)
secondary copy, the outer wrapper supplies the legacy result mutated in
place to carry the secondary copy's resourceVersion and UID — that mutation
is visible in the object returned to the caller.  Identity writes through
accessors happen only when both accessors succeed.  The possibly rewrapped
directive is dispatched to the asynchronous secondary Update, and the
legacy error is returned verbatim. -/
def updateCore (s : StorageStore) (name : String) (info : ObjInfo) :
    Option Obj × Bool × Option Err → Outcome
  | (res, fl, errLegacy) =>
      let lm :=
        match errLegacy with
        | some _ => [recordLegacyDuration true mode name "update",
                     recordLegacyDuration false mode name "update"]
        | none => [recordLegacyDuration false mode name "update"]
      let resolution := resolveObjInfo info res
      let got := s.getResp name
      let rewrap : ObjInfo × Option Obj :=
        match got.1, res with
        | none, _ => (info, res)
        | some o, some r =>
            if o.accessible && r.accessible then
              let r1 := withIdentityOf r o
              (ObjInfo.wrapper (ObjInfo.wrapper info (some (enrichObject o r1))) (some r1),
               some r1)
            else
              (ObjInfo.wrapper (ObjInfo.wrapper info (some o)) (some r), some r)
        | some o, none =>
            (ObjInfo.wrapper (ObjInfo.wrapper info (some o)) none, none)
      { res := rewrap.2, asyncFlag := fl, err := errLegacy,
        legacyMetrics := lm,
        syncCalls := [SecCall.get name],
        directiveResolution := some resolution,
        asyncCalls := [SecCall.update name rewrap.1],
        storageMetrics :=
          [recordStorageDuration (s.updateResp name rewrap.1).2.2.isSome mode name "update"] }

/-- Embedding of DualWriterMode1.Create (src lines 35-69). -/
def DualWriterMode1.Create (d : DualWriterMode1) (obj : Obj) (kind : String) : Outcome :=
  createCore d.Storage obj kind (d.Legacy.createResp obj)

/-- Embedding of DualWriterMode1.Get (src lines 71-94). -/
def DualWriterMode1.Get (d : DualWriterMode1) (name : String) : Outcome :=
  getCore d.Storage name (d.Legacy.getResp name)

/-- Embedding of DualWriterMode1.Destroy (src lines 230-233): tears down the
secondary store then the legacy store. -/
def DualWriterMode1.Destroy (d : DualWriterMode1) : List String :=
  [d.Storage.destroyToken, d.Legacy.destroyToken]

/-- Embedding of DualWriterMode1.List (src lines 96-119). -/
def DualWriterMode1.List (d : DualWriterMode1) (kind : String) : Outcome :=
  listCore d.Storage kind d.Legacy.listResp

/-- Embedding of DualWriterMode1.Delete (src lines 121-143). -/
def DualWriterMode1.Delete (d : DualWriterMode1) (name : String) : Outcome :=
  deleteCore d.Storage name (d.Legacy.deleteResp name)

/-- Embedding of DualWriterMode1.DeleteCollection (src lines 145-167). -/
def DualWriterMode1.DeleteCollection (d : DualWriterMode1) (kind : String) : Outcome :=
  deleteCollectionCore d.Storage kind d.Legacy.deleteCollectionResp

/-- Embedding of DualWriterMode1.Update (src lines 169-228). -/
def DualWriterMode1.Update (d : DualWriterMode1) (name : String) (info : ObjInfo) : Outcome :=
  updateCore d.Storage name info (d.Legacy.updateResp name info)

/-- Embedding of DualWriterMode1.GetSingularName (src lines 235-237). -/
def DualWriterMode1.GetSingularName (d : DualWriterMode1) : String :=
  d.Legacy.singularName

/-- Embedding of DualWriterMode1.NamespaceScoped (src lines 239-241). -/
def DualWriterMode1.NamespaceScoped (d : DualWriterMode1) : Bool :=
  d.Legacy.nsScoped

/-- Embedding of DualWriterMode1.New (src lines 243-245). -/
def DualWriterMode1.New (d : DualWriterMode1) : Obj :=
  d.Legacy.newObj

/-- Embedding of DualWriterMode1.NewList (src lines 247-249). -/
def DualWriterMode1.NewList (d : DualWriterMode1) : Obj :=
  d.Storage.newListObj

/-- Embedding of DualWriterMode1.ConvertToTable (src lines 251-253). -/
def DualWriterMode1.ConvertToTable (d : DualWriterMode1)
    (obj tableOptions : Option Obj) : Option String × Option Err :=
  d.Legacy.convertToTable obj tableOptions

/-- The object an outcome dispatches to the asynchronous secondary Create,
if any. -/
def Outcome.asyncCreateObj (o : Outcome) : Option Obj :=
  match o.asyncCalls with
  | [SecCall.create obj] => some obj
  | _ => none

/-- The directive an outcome dispatches to the asynchronous secondary
Update, if any. -/
def Outcome.asyncUpdateInfo (o : Outcome) : Option ObjInfo :=
  match o.asyncCalls with
  | [SecCall.update _ info] => some info
  | _ => none

/-- The uniqueID of the object the secondary store would persist for an
outcome's dispatched update directive: the store resolves the directive
against its own current copy. -/
def writtenUid (o : Outcome) (current : Option Obj) : Option String :=
  match o.asyncUpdateInfo with
  | some i => ((resolveObjInfo i current).1).map Obj.uid
  | none => none

/-! Concrete fixtures used by witnesses and counterexamples. -/

/-- A caller-supplied input object without identity fields. -/
def obj0 : Obj := ⟨"a", "", "", [], [], true⟩

/-- The primary store's copy: uid u1, version v1. -/
def objR : Obj := ⟨"a", "u1", "v1", [("team", "x")], [("note", "y")], true⟩

/-- The secondary store's own prior copy: uid u2, version v2. -/
def objO2 : Obj := ⟨"a", "u2", "v2", [], [], true⟩

/-- A concrete primary-store error. -/
def e0 : Err := ⟨"boom"⟩

/-- A concrete secondary-store error. -/
def eDown : Err := ⟨"secondary unreachable"⟩

/-- The identity update directive: persist the current stored object. -/
def idInfo : ObjInfo := ObjInfo.base (fun cur => (cur, none))

/-- A legacy store that succeeds on every call, returning objR. -/
def legOK : LegacyStore :=
  { createResp := fun _ => (some objR, none),
    getResp := fun _ => (some objR, none),
    listResp := (some objR, none),
    updateResp := fun _ _ => (some objR, false, none),
    deleteResp := fun _ => (some objR, false, none),
    deleteCollectionResp := (some objR, none),
    singularName := "thing",
    nsScoped := true,
    newObj := obj0,
    convertToTable := fun _ _ => (some "table", none),
    destroyToken := "L" }

/-- A legacy store that fails on every call with e0. -/
def legFail : LegacyStore :=
  { createResp := fun _ => (none, some e0),
    getResp := fun _ => (none, some e0),
    listResp := (none, some e0),
    updateResp := fun _ _ => (none, false, some e0),
    deleteResp := fun _ => (none, false, some e0),
    deleteCollectionResp := (none, some e0),
    singularName := "thing",
    nsScoped := true,
    newObj := obj0,
    convertToTable := fun _ _ => (none, some e0),
    destroyToken := "L" }

/-- A secondary store that is unreachable on every call. -/
def stoDown : StorageStore :=
  { createResp := fun _ => (none, some eDown),
    getResp := fun _ => (none, some eDown),
    listResp := (none, some eDown),
    updateResp := fun _ _ => (none, false, some eDown),
    deleteResp := fun _ => (none, false, some eDown),
    deleteCollectionResp := (none, some eDown),
    newListObj := obj0,
    destroyToken := "S" }

/-- A secondary store that succeeds on every call and holds objO2. -/
def stoHasO2 : StorageStore :=
  { createResp := fun _ => (some objO2, none),
    getResp := fun _ => (some objO2, none),
    listResp := (some objO2, none),
    updateResp := fun _ _ => (some objO2, false, none),
    deleteResp := fun _ => (some objO2, false, none),
    deleteCollectionResp := (some objO2, none),
    newListObj := obj0,
    destroyToken := "S" }

/-- Dual writer: healthy legacy, unreachable secondary. -/
def dDown : DualWriterMode1 := ⟨legOK, stoDown⟩

/-- Dual writer: healthy legacy, healthy secondary holding objO2. -/
def dOK : DualWriterMode1 := ⟨legOK, stoHasO2⟩

/-- Dual writer: failing legacy, unreachable secondary. -/
def dFail : DualWriterMode1 := ⟨legFail, stoDown⟩

/-- Dual writer: failing legacy, healthy secondary holding objO2. -/
def dMix : DualWriterMode1 := ⟨legFail, stoHasO2⟩

/-! Projection lemmas: the synchronous return values of each operation as
functions of the legacy response alone. -/

theorem create_res (d : DualWriterMode1) (obj : Obj) (kind : String) :
    (d.Create obj kind).res = (d.Legacy.createResp obj).1 := by
  unfold DualWriterMode1.Create
  rcases h : d.Legacy.createResp obj with ⟨res, err⟩
  cases err <;> simp [createCore]

theorem create_err (d : DualWriterMode1) (obj : Obj) (kind : String) :
    (d.Create obj kind).err = (d.Legacy.createResp obj).2 := by
  unfold DualWriterMode1.Create
  rcases h : d.Legacy.createResp obj with ⟨res, err⟩
  cases err <;> simp [createCore]

theorem get_res (d : DualWriterMode1) (name : String) :
    (d.Get name).res = (d.Legacy.getResp name).1 := by
  unfold DualWriterMode1.Get
  rcases h : d.Legacy.getResp name with ⟨res, err⟩
  cases err <;> simp [getCore]

theorem get_err (d : DualWriterMode1) (name : String) :
    (d.Get name).err = (d.Legacy.getResp name).2 := by
  unfold DualWriterMode1.Get
  rcases h : d.Legacy.getResp name with ⟨res, err⟩
  cases err <;> simp [getCore]

theorem list_res (d : DualWriterMode1) (kind : String) :
    (d.List kind).res = d.Legacy.listResp.1 := by
  unfold DualWriterMode1.List
  rcases h : d.Legacy.listResp with ⟨res, err⟩
  cases err <;> simp [listCore]

theorem list_err (d : DualWriterMode1) (kind : String) :
    (d.List kind).err = d.Legacy.listResp.2 := by
  unfold DualWriterMode1.List
  rcases h : d.Legacy.listResp with ⟨res, err⟩
  cases err <;> simp [listCore]

theorem delete_res (d : DualWriterMode1) (name : String) :
    (d.Delete name).res = (d.Legacy.deleteResp name).1 := by
  unfold DualWriterMode1.Delete
  rcases h : d.Legacy.deleteResp name with ⟨res, fl, err⟩
  cases err <;> simp [deleteCore]

theorem delete_flag (d : DualWriterMode1) (name : String) :
    (d.Delete name).asyncFlag = (d.Legacy.deleteResp name).2.1 := by
  unfold DualWriterMode1.Delete
  rcases h : d.Legacy.deleteResp name with ⟨res, fl, err⟩
  cases err <;> simp [deleteCore]

theorem delete_err (d : DualWriterMode1) (name : String) :
    (d.Delete name).err = (d.Legacy.deleteResp name).2.2 := by
  unfold DualWriterMode1.Delete
  rcases h : d.Legacy.deleteResp name with ⟨res, fl, err⟩
  cases err <;> simp [deleteCore]

theorem deleteCollection_res (d : DualWriterMode1) (kind : String) :
    (d.DeleteCollection kind).res = d.Legacy.deleteCollectionResp.1 := by
  unfold DualWriterMode1.DeleteCollection
  rcases h : d.Legacy.deleteCollectionResp with ⟨res, err⟩
  cases err <;> simp [deleteCollectionCore]

theorem deleteCollection_err (d : DualWriterMode1) (kind : String) :
    (d.DeleteCollection kind).err = d.Legacy.deleteCollectionResp.2 := by
  unfold DualWriterMode1.DeleteCollection
  rcases h : d.Legacy.deleteCollectionResp with ⟨res, err⟩
  cases err <;> simp [deleteCollectionCore]

theorem update_err (d : DualWriterMode1) (name : String) (info : ObjInfo) :
    (d.Update name info).err = (d.Legacy.updateResp name info).2.2 := by
  unfold DualWriterMode1.Update
  rcases h : d.Legacy.updateResp name info with ⟨res, fl, err⟩
  simp [updateCore]

theorem update_flag (d : DualWriterMode1) (name : String) (info : ObjInfo) :
    (d.Update name info).asyncFlag = (d.Legacy.updateResp name info).2.1 := by
  unfold DualWriterMode1.Update
  rcases h : d.Legacy.updateResp name info with ⟨res, fl, err⟩
  simp [updateCore]

/-- Characterization of Update when the legacy store returns an object and
the secondary copy is fetched and found, with both accessors succeeding:
the dispatched directive is the double wrapper and the synchronous result
is the legacy result carrying the secondary copy's identity. -/
theorem update_found_rewrap (d : DualWriterMode1) (name : String) (info : ObjInfo)
    (r o : Obj) (fl : Bool) (eL ge : Option Err)
    (hU : d.Legacy.updateResp name info = (some r, fl, eL))
    (hG : d.Storage.getResp name = (some o, ge))
    (ho : o.accessible = true) (hr : r.accessible = true) :
    (d.Update name info).asyncCalls =
      [SecCall.update name
        (ObjInfo.wrapper
          (ObjInfo.wrapper info (some (enrichObject o (withIdentityOf r o))))
          (some (withIdentityOf r o)))] ∧
    (d.Update name info).res = some (withIdentityOf r o) := by
  unfold DualWriterMode1.Update
  rw [hU]
  simp [updateCore, hG, ho, hr]

/-- Characterization of Create on legacy success with both accessors
succeeding: the primary result is returned and the enriched input object,
carrying the primary result's identity, is dispatched to the secondary. -/
theorem create_success_mirror (d : DualWriterMode1) (obj : Obj) (kind : String) (r : Obj)
    (h : d.Legacy.createResp obj = (some r, none))
    (hobj : obj.accessible = true) (hr : r.accessible = true) :
    (d.Create obj kind).res = some r ∧
    (d.Create obj kind).asyncCreateObj = some (enrichObject obj r) ∧
    (enrichObject obj r).uid = r.uid ∧
    (enrichObject obj r).resourceVersion = r.resourceVersion := by
  unfold DualWriterMode1.Create
  rw [h]
  refine ⟨rfl, ?_, rfl, rfl⟩
  simp [createCore, Outcome.asyncCreateObj, hobj, hr]

/-! The claims. -/

/-- C1 counterexample: the claim fails on Update.  Two secondary-store
behaviours over the same legacy store — one unreachable, one holding a
copy with a different resourceVersion and UID — yield different objects
returned synchronously to the caller, because Update performs a
synchronous secondary Get and mutates the returned legacy result with the
fetched copy's identity. -/
theorem C1_counterexample :
    (dDown.Update "a" idInfo).res ≠ (dOK.Update "a" idInfo).res ∧
    dDown.Legacy = dOK.Legacy := by
  exact ⟨by decide, rfl⟩

/-- C1 amended: for Create, Get, List, Delete and DeleteCollection the
synchronous (result, error) pair — and Delete's async flag — is a function
of the legacy response alone, identical across any two secondary-store
behaviours; for Update the error and async flag are likewise independent
of the secondary store and the error returned is the legacy store's error
verbatim, so the caller never receives an error originating from the
secondary store, but the returned object is not secondary-independent. -/
theorem C1_secondary_isolation (L : LegacyStore) (s1 s2 : StorageStore)
    (obj : Obj) (kind name : String) (info : ObjInfo) :
    ((DualWriterMode1.mk L s1).Create obj kind).res = ((DualWriterMode1.mk L s2).Create obj kind).res ∧
    ((DualWriterMode1.mk L s1).Create obj kind).err = ((DualWriterMode1.mk L s2).Create obj kind).err ∧
    ((DualWriterMode1.mk L s1).Get name).res = ((DualWriterMode1.mk L s2).Get name).res ∧
    ((DualWriterMode1.mk L s1).Get name).err = ((DualWriterMode1.mk L s2).Get name).err ∧
    ((DualWriterMode1.mk L s1).List kind).res = ((DualWriterMode1.mk L s2).List kind).res ∧
    ((DualWriterMode1.mk L s1).List kind).err = ((DualWriterMode1.mk L s2).List kind).err ∧
    ((DualWriterMode1.mk L s1).Delete name).res = ((DualWriterMode1.mk L s2).Delete name).res ∧
    ((DualWriterMode1.mk L s1).Delete name).asyncFlag = ((DualWriterMode1.mk L s2).Delete name).asyncFlag ∧
    ((DualWriterMode1.mk L s1).Delete name).err = ((DualWriterMode1.mk L s2).Delete name).err ∧
    ((DualWriterMode1.mk L s1).DeleteCollection kind).res = ((DualWriterMode1.mk L s2).DeleteCollection kind).res ∧
    ((DualWriterMode1.mk L s1).DeleteCollection kind).err = ((DualWriterMode1.mk L s2).DeleteCollection kind).err ∧
    ((DualWriterMode1.mk L s1).Update name info).err = ((DualWriterMode1.mk L s2).Update name info).err ∧
    ((DualWriterMode1.mk L s1).Update name info).asyncFlag = ((DualWriterMode1.mk L s2).Update name info).asyncFlag ∧
    ((DualWriterMode1.mk L s1).Update name info).err = (L.updateResp name info).2.2 := by
  simp [create_res, create_err, get_res, get_err, list_res, list_err,
    delete_res, delete_flag, delete_err, deleteCollection_res, deleteCollection_err,
    update_err, update_flag]

/-- C2: when the legacy Create succeeds and both accessors succeed, the
object dispatched to the asynchronous secondary Create is the input object
enriched with the created result's identity, carrying the same uniqueID
and versionToken as the primary result returned to the caller, whatever
identity fields the caller supplied. -/
theorem C2_create_mirror_identity (d : DualWriterMode1) (obj : Obj) (kind : String) (r : Obj)
    (h : d.Legacy.createResp obj = (some r, none))
    (hobj : obj.accessible = true) (hr : r.accessible = true) :
    (d.Create obj kind).res = some r ∧
    (d.Create obj kind).asyncCreateObj = some (enrichObject obj r) ∧
    (enrichObject obj r).uid = r.uid ∧
    (enrichObject obj r).resourceVersion = r.resourceVersion :=
  create_success_mirror d obj kind r h hobj hr

/-- C2 witness at a concrete input. -/
theorem C2_witness :
    (dDown.Create obj0 "k").res = some objR ∧
    (dDown.Create obj0 "k").asyncCreateObj = some (enrichObject obj0 objR) ∧
    (enrichObject obj0 objR).uid = objR.uid ∧
    (enrichObject obj0 objR).resourceVersion = objR.resourceVersion :=
  C2_create_mirror_identity dDown obj0 "k" objR rfl rfl rfl

/-- C3: evaluation at the failing input.  When the legacy Update (and
DeleteCollection) fail, the operation is not aborted: the legacy error is
returned, but the synchronous secondary fetch still runs, the directive is
still rewrapped, and the secondary mirror call is still dispatched. -/
theorem C3_no_abort_on_primary_failure :
    (dMix.Update "x" idInfo).err = some e0 ∧
    (dMix.Update "x" idInfo).syncCalls.length = 1 ∧
    (dMix.Update "x" idInfo).asyncCalls.length = 1 ∧
    ((dMix.Update "x" idInfo).asyncUpdateInfo.map ObjInfo.isWrapped) = some true ∧
    (dMix.DeleteCollection "k").err = some e0 ∧
    (dMix.DeleteCollection "k").asyncCalls.length = 1 :=
  ⟨rfl, rfl, rfl, rfl, rfl, rfl⟩

/-- C4 counterexample: for an Update whose secondary copy has uid u2 while
the primary copy has uid u1, the copy the secondary store persists carries
the secondary copy's own uid u2, not the primary's u1. -/
theorem C4_counterexample :
    writtenUid (dOK.Update "a" idInfo) (some objO2) = some "u2" ∧
    (dOK.Legacy.updateResp "a" idInfo).1 = some objR ∧
    objR.uid = "u1" ∧
    writtenUid (dOK.Update "a" idInfo) (some objO2) ≠ some objR.uid :=
  ⟨rfl, rfl, rfl, by decide⟩

/-- C4 amended: copies written by the Create mirror carry the primary
result's uniqueID and versionToken; the Update mirror instead hands the
secondary store a merge base and a current object that carry the fetched
secondary copy's own prior uniqueID and versionToken (so its
optimistic-concurrency check passes), not the primary's values. -/
theorem C4_identity_amended (d : DualWriterMode1)
    (obj : Obj) (kind name : String) (info : ObjInfo) (rc r o : Obj)
    (fl : Bool) (eL ge : Option Err)
    (hC : d.Legacy.createResp obj = (some rc, none))
    (hobj : obj.accessible = true) (hrc : rc.accessible = true)
    (hU : d.Legacy.updateResp name info = (some r, fl, eL))
    (hG : d.Storage.getResp name = (some o, ge))
    (ho : o.accessible = true) (hr : r.accessible = true) :
    ((d.Create obj kind).asyncCreateObj.map Obj.uid = some rc.uid ∧
     (d.Create obj kind).asyncCreateObj.map Obj.resourceVersion = some rc.resourceVersion) ∧
    ((d.Update name info).asyncCalls =
       [SecCall.update name
         (ObjInfo.wrapper
           (ObjInfo.wrapper info (some (enrichObject o (withIdentityOf r o))))
           (some (withIdentityOf r o)))] ∧
     (withIdentityOf r o).uid = o.uid ∧
     (withIdentityOf r o).resourceVersion = o.resourceVersion ∧
     (enrichObject o (withIdentityOf r o)).uid = o.uid ∧
     (enrichObject o (withIdentityOf r o)).resourceVersion = o.resourceVersion) := by
  have hcr := create_success_mirror d obj kind rc hC hobj hrc
  have hup := update_found_rewrap d name info r o fl eL ge hU hG ho hr
  exact ⟨⟨by rw [hcr.2.1]; simp [hcr.2.2.1], by rw [hcr.2.1]; simp [hcr.2.2.2]⟩,
    ⟨hup.1, rfl, rfl, rfl, rfl⟩⟩

/-- C4 witness at a concrete input. -/
theorem C4_witness :
    (((dOK.Create obj0 "k").asyncCreateObj.map Obj.uid = some objR.uid ∧
      (dOK.Create obj0 "k").asyncCreateObj.map Obj.resourceVersion = some objR.resourceVersion) ∧
     ((dOK.Update "a" idInfo).asyncCalls =
        [SecCall.update "a"
          (ObjInfo.wrapper
            (ObjInfo.wrapper idInfo (some (enrichObject objO2 (withIdentityOf objR objO2))))
            (some (withIdentityOf objR objO2)))] ∧
      (withIdentityOf objR objO2).uid = objO2.uid ∧
      (withIdentityOf objR objO2).resourceVersion = objO2.resourceVersion ∧
      (enrichObject objO2 (withIdentityOf objR objO2)).uid = objO2.uid ∧
      (enrichObject objO2 (withIdentityOf objR objO2)).resourceVersion = objO2.resourceVersion)) :=
  C4_identity_amended dOK obj0 "k" "a" idInfo objR objR objO2 false none none
    rfl rfl rfl rfl rfl rfl rfl

/-- C5: evaluation at the failing inputs.  On a failed legacy Update or
DeleteCollection the synchronous path finalizes two legacy duration
records — one flagged failed, then an unconditional one flagged
successful — instead of exactly one with the matching outcome. -/
theorem C5_double_legacy_record :
    (dMix.Update "x" idInfo).legacyMetrics =
      [recordLegacyDuration true mode "x" "update",
       recordLegacyDuration false mode "x" "update"] ∧
    (dMix.DeleteCollection "k").legacyMetrics =
      [recordLegacyDuration true mode "k" "delete-collection",
       recordLegacyDuration false mode "k" "delete-collection"] :=
  ⟨rfl, rfl⟩

/-- C6: when the legacy Create fails the error is returned immediately,
exactly one failed legacy metric is recorded, and no secondary call or
secondary metric of any kind is produced. -/
theorem C6_create_failure (d : DualWriterMode1) (obj : Obj) (kind : String)
    (res0 : Option Obj) (e : Err)
    (h : d.Legacy.createResp obj = (res0, some e)) :
    d.Create obj kind =
      { res := res0, asyncFlag := false, err := some e,
        legacyMetrics := [recordLegacyDuration true mode kind "create"],
        syncCalls := [], directiveResolution := none,
        asyncCalls := [], storageMetrics := [] } := by
  unfold DualWriterMode1.Create
  rw [h]
  rfl

/-- C6 witness at a concrete input. -/
theorem C6_witness :
    dFail.Create obj0 "k" =
      { res := none, asyncFlag := false, err := some e0,
        legacyMetrics := [recordLegacyDuration true mode "k" "create"],
        syncCalls := [], directiveResolution := none,
        asyncCalls := [], storageMetrics := [] } :=
  C6_create_failure dFail obj0 "k" none e0 rfl

/-- C7: when the secondary copy is fetched and found (accessors
succeeding), the directive dispatched to the secondary Update is the
double wrapper: resolving it at any current object delegates to the
original caller-supplied directive applied to the secondary store's own
(label/annotation-enriched) copy — whose uniqueID and versionToken are the
secondary copy's — and the outer wrapper's merge base is the primary
result carrying the secondary copy's resourceVersion and UID. -/
theorem C7_update_wrapper (d : DualWriterMode1) (name : String) (info : ObjInfo)
    (r o : Obj) (fl : Bool) (eL ge : Option Err)
    (hU : d.Legacy.updateResp name info = (some r, fl, eL))
    (hG : d.Storage.getResp name = (some o, ge))
    (ho : o.accessible = true) (hr : r.accessible = true) :
    (d.Update name info).asyncUpdateInfo =
      some (ObjInfo.wrapper
        (ObjInfo.wrapper info (some (enrichObject o (withIdentityOf r o))))
        (some (withIdentityOf r o))) ∧
    (∀ cur, resolveObjInfo
        (ObjInfo.wrapper
          (ObjInfo.wrapper info (some (enrichObject o (withIdentityOf r o))))
          (some (withIdentityOf r o))) cur =
      resolveObjInfo info (some (enrichObject o (withIdentityOf r o)))) ∧
    (enrichObject o (withIdentityOf r o)).uid = o.uid ∧
    (enrichObject o (withIdentityOf r o)).resourceVersion = o.resourceVersion ∧
    (withIdentityOf r o).uid = o.uid ∧
    (withIdentityOf r o).resourceVersion = o.resourceVersion := by
  have hup := update_found_rewrap d name info r o fl eL ge hU hG ho hr
  refine ⟨?_, fun cur => rfl, rfl, rfl, rfl, rfl⟩
  simp [Outcome.asyncUpdateInfo, hup.1]

/-- C7 witness at a concrete input, with the resolution contract
instantiated at the primary result as current object. -/
theorem C7_witness :
    (dOK.Update "a" idInfo).asyncUpdateInfo =
      some (ObjInfo.wrapper
        (ObjInfo.wrapper idInfo (some (enrichObject objO2 (withIdentityOf objR objO2))))
        (some (withIdentityOf objR objO2))) ∧
    resolveObjInfo
        (ObjInfo.wrapper
          (ObjInfo.wrapper idInfo (some (enrichObject objO2 (withIdentityOf objR objO2))))
          (some (withIdentityOf objR objO2))) (some objR) =
      resolveObjInfo idInfo (some (enrichObject objO2 (withIdentityOf objR objO2))) ∧
    (enrichObject objO2 (withIdentityOf objR objO2)).uid = objO2.uid :=
  have h := C7_update_wrapper dOK "a" idInfo objR objO2 false none none rfl rfl rfl rfl
  ⟨h.1, h.2.1 (some objR), h.2.2.1⟩

/-- C8: GetSingularName, NamespaceScoped, New and ConvertToTable delegate
to the legacy store, NewList delegates to the secondary store, and Destroy
tears down both stores. -/
theorem C8_passthrough (d : DualWriterMode1) (obj topts : Option Obj) :
    d.GetSingularName = d.Legacy.singularName ∧
    d.NamespaceScoped = d.Legacy.nsScoped ∧
    d.New = d.Legacy.newObj ∧
    d.ConvertToTable obj topts = d.Legacy.convertToTable obj topts ∧
    d.NewList = d.Storage.newListObj ∧
    d.Destroy = [d.Storage.destroyToken, d.Legacy.destroyToken] :=
  ⟨rfl, rfl, rfl, rfl, rfl, rfl⟩

/-- C9: when the legacy call fails, Create, Get, List and Delete return
without issuing any secondary call, synchronous or asynchronous, and
without recording any secondary-store metric. -/
theorem C9_failure_no_secondary (d : DualWriterMode1) (obj : Obj) (kind name : String)
    (rc rg rl rd : Option Obj) (fld : Bool) (ec eg el ed : Err)
    (hC : d.Legacy.createResp obj = (rc, some ec))
    (hG : d.Legacy.getResp name = (rg, some eg))
    (hL : d.Legacy.listResp = (rl, some el))
    (hD : d.Legacy.deleteResp name = (rd, fld, some ed)) :
    ((d.Create obj kind).asyncCalls = [] ∧ (d.Create obj kind).storageMetrics = [] ∧
      (d.Create obj kind).syncCalls = []) ∧
    ((d.Get name).asyncCalls = [] ∧ (d.Get name).storageMetrics = [] ∧
      (d.Get name).syncCalls = []) ∧
    ((d.List kind).asyncCalls = [] ∧ (d.List kind).storageMetrics = [] ∧
      (d.List kind).syncCalls = []) ∧
    ((d.Delete name).asyncCalls = [] ∧ (d.Delete name).storageMetrics = [] ∧
      (d.Delete name).syncCalls = []) := by
  unfold DualWriterMode1.Create DualWriterMode1.Get DualWriterMode1.List DualWriterMode1.Delete
  rw [hC, hG, hL, hD]
  exact ⟨⟨rfl, rfl, rfl⟩, ⟨rfl, rfl, rfl⟩, ⟨rfl, rfl, rfl⟩, ⟨rfl, rfl, rfl⟩⟩

/-- C9 witness at a concrete input. -/
theorem C9_witness :
    ((dFail.Create obj0 "k").asyncCalls = [] ∧ (dFail.Create obj0 "k").storageMetrics = [] ∧
      (dFail.Create obj0 "k").syncCalls = []) ∧
    ((dFail.Get "a").asyncCalls = [] ∧ (dFail.Get "a").storageMetrics = [] ∧
      (dFail.Get "a").syncCalls = []) ∧
    ((dFail.List "k").asyncCalls = [] ∧ (dFail.List "k").storageMetrics = [] ∧
      (dFail.List "k").syncCalls = []) ∧
    ((dFail.Delete "a").asyncCalls = [] ∧ (dFail.Delete "a").storageMetrics = [] ∧
      (dFail.Delete "a").syncCalls = []) :=
  C9_failure_no_secondary dFail obj0 "k" "a" none none none none false e0 e0 e0 e0
    rfl rfl rfl rfl

/-- C10: every Update call — whatever the legacy outcome, including a
failed one — synchronously resolves the caller's update directive against
the legacy result and issues a synchronous secondary-store Get for the
name on the caller's path before returning. -/
theorem C10_sync_secondary_read (d : DualWriterMode1) (name : String) (info : ObjInfo) :
    (d.Update name info).syncCalls = [SecCall.get name] ∧
    (d.Update name info).directiveResolution =
      some (resolveObjInfo info (d.Legacy.updateResp name info).1) := by
  unfold DualWriterMode1.Update
  rcases h : d.Legacy.updateResp name info with ⟨res, fl, err⟩
  simp [updateCore]

end GrafanaDW
